import Mathlib

/-!
Shallow embedding of `linaro_media_create/boards.py` (Linaro Image Tools).

The source is Python 2: `/` on integers is floor division, which `Nat`
division matches exactly.  Strings built with `'%s' % n` render naturals in
decimal, which `Nat.repr` matches.  Class attributes become fields of a
`BoardConfig` structure; the seven concrete board classes become values of
that structure, and methods overridden per class are dispatched on a
`Board` enumeration.  Filesystem effects (glob) are passed in explicitly as
the list of paths the glob would scan; subprocess invocations are modelled
as the argument vectors the code builds.
-/

/-! ## Partition-plan constants (boards.py lines 50-70) -/

def PART_ALIGN_S : Nat := 4 * 1024 * 1024 / 512

def LOADER_PART_START_S : Nat := 2

def BOOT_PART_START_S : Nat := 8 * 1024 * 1024 / 512

def ROOT_PART_START_S : Nat := 64 * 1024 * 1024 / 512

def BOOT_PART_START_CYL : Nat := BOOT_PART_START_S / (63 * 255)

def LOADER_PART_SIZE_S : Nat := BOOT_PART_START_CYL * (63 * 255) - LOADER_PART_START_S

def ROOT_PART_START_CYL : Nat := ROOT_PART_START_S / (63 * 255)

def BOOT_PART_SIZE_S : Nat := ROOT_PART_START_CYL * (63 * 255) - BOOT_PART_START_S

/-! ## Python `%` string formatting with a single `%s` slot

The board classes compute e.g. `'console=tty0 console=%s,115200n8' %
serial_tty` at class-definition time.  Every template in the source has
exactly one `%s` slot and no other `%` directive, so substituting the
first occurrence is a faithful model. -/

def subst1 : List Char → List Char → List Char
  | [], _ => []
  | '%' :: 's' :: rest, v => v ++ rest
  | c :: rest, v => c :: subst1 rest v

def pyFormat1 (template value : String) : String :=
  ⟨subst1 template.data value.data⟩

/-! ## BoardConfig: the class-level attributes (boards.py lines 73-90)

`serial_tty`, `extra_serial_opts` and `live_serial_opts` hold the strings
the class carries once they are plain attributes; the OMAP family, where
`serial_tty` is a descriptor that raises until resolved, is modelled
separately below by `OmapProfile` and `OmapSerialState`. -/

structure BoardConfig where
  uboot_flavor : Option String := none
  mmc_option : String := "0:1"
  mmc_part_offset : Nat := 0
  fat_size : Nat := 32
  extra_serial_opts : String := ""
  live_serial_opts : String := ""
  extra_boot_args_options : Option String := none
  kernel_addr : String := ""
  initrd_addr : String := ""
  load_addr : String := ""
  kernel_suffix : String := ""
  boot_script : Option String := none
  serial_tty : String := ""
  deriving Repr, DecidableEq

/-- Method `get_sfdisk_cmd` of `BoardConfig` (boards.py lines 92-109). -/
def BoardConfig.get_sfdisk_cmd (cls : BoardConfig) : String :=
  let partition_type := if cls.fat_size = 32 then "0x0C" else "0x0E"
  Nat.repr BOOT_PART_START_S ++ "," ++ Nat.repr BOOT_PART_SIZE_S ++ ","
    ++ partition_type ++ ",*\n" ++ Nat.repr ROOT_PART_START_S ++ ",,,-"

/-! ## The concrete board profiles (boards.py lines 247-392)

For the OMAP-family classes (Beagle, Overo, Panda, Igep) the serial-TTY
attributes are dynamic descriptors in the source; the static attributes
recorded here are the ones the partitioning and boot-file code paths use.
The dynamic serial attributes are modelled by `OmapProfile` below. -/

def BeagleConfig : BoardConfig :=
  { uboot_flavor := some "omap3_beagle"
    kernel_addr := "0x80000000"
    initrd_addr := "0x81600000"
    load_addr := "0x80008000"
    kernel_suffix := "linaro-omap"
    boot_script := some "boot.scr"
    extra_boot_args_options := some
      ("earlyprintk fixrtc nocompcache vram=12M " ++
       "omapfb.mode=dvi:1280x720MR-16@60") }

def OveroConfig : BoardConfig :=
  { uboot_flavor := some "omap3_overo"
    kernel_addr := "0x80000000"
    initrd_addr := "0x81600000"
    load_addr := "0x80008000"
    kernel_suffix := "linaro-omap"
    boot_script := some "boot.scr"
    extra_boot_args_options := some "earlyprintk" }

def PandaConfig : BoardConfig :=
  { uboot_flavor := some "omap4_panda"
    kernel_addr := "0x80200000"
    initrd_addr := "0x81600000"
    load_addr := "0x80008000"
    kernel_suffix := "linaro-omap"
    boot_script := some "boot.scr"
    extra_boot_args_options := some
      ("earlyprintk fixrtc nocompcache vram=32M " ++
       "omapfb.vram=0:8M mem=463M ip=none") }

def IgepConfig : BoardConfig :=
  { BeagleConfig with uboot_flavor := none }

def Ux500Config : BoardConfig :=
  let serial_tty := "ttyAMA2"
  { serial_tty := serial_tty
    extra_serial_opts := pyFormat1 "console=tty0 console=%s,115200n8" serial_tty
    live_serial_opts := pyFormat1 "serialtty=%s" serial_tty
    kernel_addr := "0x00100000"
    initrd_addr := "0x08000000"
    load_addr := "0x00008000"
    kernel_suffix := "ux500"
    boot_script := some "flash.scr"
    extra_boot_args_options := some
      ("earlyprintk rootdelay=1 fixrtc nocompcache " ++
       "mem=96M@0 mem_modem=32M@96M mem=44M@128M pmem=22M@172M " ++
       "mem=30M@194M mem_mali=32M@224M pmem_hwb=54M@256M " ++
       "hwmem=48M@302M mem=152M@360M")
    mmc_option := "1:1" }

def Mx51evkConfig : BoardConfig :=
  let serial_tty := "ttymxc0"
  { serial_tty := serial_tty
    extra_serial_opts := pyFormat1 "console=tty0 console=%s,115200n8" serial_tty
    live_serial_opts := pyFormat1 "serialtty=%s" serial_tty
    kernel_addr := "0x90000000"
    initrd_addr := "0x90800000"
    load_addr := "0x90008000"
    kernel_suffix := "linaro-mx51"
    boot_script := some "boot.scr"
    mmc_part_offset := 1
    mmc_option := "0:2" }

def VexpressConfig : BoardConfig :=
  let serial_tty := "ttyAMA0"
  { uboot_flavor := some "ca9x4_ct_vxp"
    serial_tty := serial_tty
    extra_serial_opts := pyFormat1 "console=tty0 console=%s,38400n8" serial_tty
    live_serial_opts := pyFormat1 "serialtty=%s" serial_tty
    kernel_addr := "0x60008000"
    initrd_addr := "0x81000000"
    load_addr := "0x60008000"
    kernel_suffix := "linaro-vexpress"
    boot_script := none
    fat_size := 16 }

/-- The keys of the `board_configs` table (boards.py lines 384-392). -/
inductive Board
  | beagle | igep | panda | vexpress | ux500 | mx51evk | overo
  deriving Repr, DecidableEq, Fintype

/-- The `board_configs` table: each name maps to its class. -/
def board_configs : Board → BoardConfig
  | .beagle => BeagleConfig
  | .igep => IgepConfig
  | .panda => PandaConfig
  | .vexpress => VexpressConfig
  | .ux500 => Ux500Config
  | .mx51evk => Mx51evkConfig
  | .overo => OveroConfig

/-- Dispatch of `get_sfdisk_cmd` on the concrete class: `Mx51evkConfig`
overrides it (boards.py lines 340-348), prepending the loader-partition
line to the result of the `super()` call; every other class inherits the
base method. -/
def Board.get_sfdisk_cmd : Board → String
  | .mx51evk =>
      Nat.repr LOADER_PART_START_S ++ "," ++ Nat.repr LOADER_PART_SIZE_S
        ++ ",0xDA\n" ++ (board_configs .mx51evk).get_sfdisk_cmd
  | b => (board_configs b).get_sfdisk_cmd

/-! ## Boot-command synthesis (boards.py lines 111-151)

`_get_boot_cmd` builds `serial_opts`, `lowmem_opt`, `boot_snippet` and
`boot_args_options` and then renders one format string.  The value quoted
on the `setenv bootargs` line — `'%(serial_opts)s %(lowmem_opt)s
%(boot_snippet)s %(boot_args_options)s'` — is factored out here as
`BoardConfig.bootargs`. -/

def BoardConfig.bootargs (cls : BoardConfig) (is_live is_lowmem : Bool)
    (consoles : Option (List String)) (rootfs_uuid : String) : String :=
  let boot_args_options :=
    match cls.extra_boot_args_options with
    | none => "rootwait ro"
    | some extra => "rootwait ro" ++ " " ++ extra
  let serial_opts :=
    match consoles with
    | none => ""
    | some cs =>
        let s := cs.foldl (fun acc c => acc ++ " console=" ++ c) ""
        if is_live then s ++ " serialtty=" ++ cls.serial_tty else s
  let serial_opts := serial_opts ++ " " ++ cls.extra_serial_opts
  let serial_opts :=
    if is_live then serial_opts ++ " " ++ cls.live_serial_opts else serial_opts
  let lowmem_opt := if is_live && is_lowmem then "only-ubiquity" else ""
  let boot_snippet :=
    if is_live then "boot=casper" else "root=UUID=" ++ rootfs_uuid
  serial_opts ++ " " ++ lowmem_opt ++ " " ++ boot_snippet ++ " " ++ boot_args_options

def BoardConfig._get_boot_cmd (cls : BoardConfig) (is_live is_lowmem : Bool)
    (consoles : Option (List String)) (rootfs_uuid : String) : String :=
  "setenv bootcmd 'fatload mmc " ++ cls.mmc_option ++ " " ++ cls.kernel_addr
    ++ " uImage; fatload mmc " ++ cls.mmc_option ++ " " ++ cls.initrd_addr
    ++ " uInitrd; bootm " ++ cls.kernel_addr ++ " " ++ cls.initrd_addr
    ++ "'\nsetenv bootargs '"
    ++ cls.bootargs is_live is_lowmem consoles rootfs_uuid
    ++ "'\nboot"

/-! Join helpers used to state the spec's wording ("join with single
spaces", "joined by newline"). -/

def joinSp : List String → String
  | [] => ""
  | [x] => x
  | x :: xs => x ++ " " ++ joinSp xs

def joinNl : List String → String
  | [] => ""
  | [x] => x
  | x :: xs => x ++ "\n" ++ joinNl xs

/-- The bootargs string exactly as claim C3 words it: the single-space
join of the listed tokens, with no extra empty tokens. -/
def claimedBootargs (cls : BoardConfig) (is_live is_lowmem : Bool)
    (consoles : Option (List String)) (uuid : String) : String :=
  joinSp ((consoles.getD []).map (fun c => "console=" ++ c)
    ++ (if is_live then ["serialtty=" ++ cls.serial_tty] else [])
    ++ [cls.extra_serial_opts]
    ++ (if is_live then [cls.live_serial_opts] else [])
    ++ (if is_live && is_lowmem then ["only-ubiquity"] else [])
    ++ [if is_live then "boot=casper" else "root=UUID=" ++ uuid]
    ++ [match cls.extra_boot_args_options with
        | none => "rootwait ro"
        | some e => "rootwait ro" ++ " " ++ e])

/-- The token sequence of the amended C3: the code's bootargs is the
single-space join of an empty leading token, the claim's console /
serialtty tokens (serialtty only when consoles were given), the
`extra_serial_opts` token even when empty, the live options when live,
an only-ubiquity-or-empty token, the root/casper snippet, and the
`rootwait ro` options. -/
def amendedTokens (cls : BoardConfig) (is_live is_lowmem : Bool)
    (consoles : Option (List String)) (uuid : String) : List String :=
  (match consoles with
   | none => []
   | some cs =>
      cs.map (fun c => "console=" ++ c)
        ++ (if is_live then ["serialtty=" ++ cls.serial_tty] else []))
    ++ [cls.extra_serial_opts]
    ++ (if is_live then [cls.live_serial_opts] else [])
    ++ [if is_live && is_lowmem then "only-ubiquity" else ""]
    ++ [if is_live then "boot=casper" else "root=UUID=" ++ uuid]
    ++ [match cls.extra_boot_args_options with
        | none => "rootwait ro"
        | some e => "rootwait ro" ++ " " ++ e]

/-- Concatenation of the tokens, each preceded by a single space. -/
def spaced : List String → String
  | [] => ""
  | x :: xs => " " ++ x ++ spaced xs

/-! ## Glob matching and `_get_file_matching` (boards.py lines 412-426)

`glob.glob` is modelled by filtering an explicit directory listing with a
pattern matcher supporting the only wildcard the source's patterns use,
`*`, which (as in glob) matches any run of characters other than the path
separator. -/

def globMatchAux : Nat → List Char → List Char → Bool
  | 0, _, _ => false
  | _ + 1, [], s => s.isEmpty
  | fuel + 1, '*' :: ps, s =>
      globMatchAux fuel ps s ||
        (match s with
         | [] => false
         | c :: cs => !(c == '/') && globMatchAux fuel ('*' :: ps) cs)
  | fuel + 1, p :: ps, s =>
      match s with
      | [] => false
      | c :: cs => p == c && globMatchAux fuel ps cs

def globMatch (pattern s : String) : Bool :=
  globMatchAux (pattern.length + s.length + 1) pattern.data s.data

/-- Function `_get_file_matching(regex)`: the glob result is the filtered listing;
exactly one match is returned, zero or several raise `ValueError`. -/
def _get_file_matching (pattern : String) (files : List String) : Except String String :=
  let matched := files.filter (globMatch pattern)
  if matched.length = 1 then
    .ok (matched.headD "")
  else if matched.length = 0 then
    .error ("No files found matching '" ++ pattern ++ "'; can't continue")
  else
    .error ("Too many files matching '" ++ pattern ++ "' found.")

/-! ## mkimage invocations (boards.py lines 395-441)

`_run_mkimage` is modelled as the argument vector it spawns.  Note the
source passes `load_addr` to both `-a` and `-e` and never uses its
`entry_point` parameter. -/

def _run_mkimage (img_type load_addr entry_point name img_data img : String) :
    List String :=
  ["mkimage", "-A", "arm", "-O", "linux", "-T", img_type, "-C", "none",
   "-a", load_addr, "-e", load_addr, "-n", name, "-d", img_data, img]

def make_uImage (load_addr uboot_parts_dir suffix boot_disk : String)
    (files : List String) : Except String (List String) :=
  match _get_file_matching (uboot_parts_dir ++ "/vmlinuz-*-" ++ suffix) files with
  | .error e => .error e
  | .ok img_data =>
      .ok (_run_mkimage "kernel" load_addr load_addr "Linux" img_data
            (boot_disk ++ "/uImage"))

def make_uInitrd (uboot_parts_dir suffix boot_disk : String)
    (files : List String) : Except String (List String) :=
  match _get_file_matching (uboot_parts_dir ++ "/initrd.img-*-" ++ suffix) files with
  | .error e => .error e
  | .ok img_data =>
      .ok (_run_mkimage "ramdisk" "0" "0" "initramfs" img_data
            (boot_disk ++ "/uInitrd"))

/-! ## OMAP dynamic serial TTY (boards.py lines 182-244)

`OmapConfig` keeps `_serial_tty` / `_extra_serial_opts` /
`_live_serial_opts` and exposes `serial_tty`, `extra_serial_opts` and
`live_serial_opts` through descriptors: reading `serial_tty` before
`set_appropriate_serial_tty` raises, and the two option readers substitute
the resolved TTY into their templates (so they raise too before
resolution).  The descriptor state is `OmapSerialState`; the chroot
directory contents are passed as the chroot-relative path listing that
`glob(os.path.join(chroot_dir, 'boot', 'vmlinuz*'))` would scan. -/

inductive OmapSerialState
  | unresolved
  | resolved (tty : String)
  deriving Repr, DecidableEq

structure OmapProfile where
  _serial_tty : String
  _extra_serial_opts : Option String := none
  _live_serial_opts : Option String := none
  deriving Repr, DecidableEq

def BeagleConfigOmap : OmapProfile :=
  { _serial_tty := "ttyO2"
    _extra_serial_opts := some "console=tty0 console=%s,115200n8"
    _live_serial_opts := some "serialtty=%s" }

def OveroConfigOmap : OmapProfile :=
  { _serial_tty := "ttyO2"
    _extra_serial_opts := some "console=tty0 console=%s,115200n8" }

def PandaConfigOmap : OmapProfile :=
  { _serial_tty := "ttyO2"
    _extra_serial_opts := some "console=tty0 console=%s,115200n8"
    _live_serial_opts := some "serialtty=%s" }

def IgepConfigOmap : OmapProfile := BeagleConfigOmap

def readSerialTty : OmapSerialState → Except String String
  | .unresolved =>
      .error ("You must not use this attribute before calling "
        ++ "set_appropriate_serial_tty")
  | .resolved tty => .ok tty

def OmapProfile.extra_serial_opts (cls : OmapProfile) (st : OmapSerialState) :
    Except String String :=
  match readSerialTty st with
  | .error e => .error e
  | .ok tty =>
      match cls._extra_serial_opts with
      | none => .error "TypeError: unsupported operand type for %: NoneType"
      | some t => .ok (pyFormat1 t tty)

def OmapProfile.live_serial_opts (cls : OmapProfile) (st : OmapSerialState) :
    Except String String :=
  match readSerialTty st with
  | .error e => .error e
  | .ok tty =>
      match cls._live_serial_opts with
      | none => .error "TypeError: unsupported operand type for %: NoneType"
      | some t => .ok (pyFormat1 t tty)

/-- Model of `os.path.basename`: the part of the path after the last `/`. -/
def basename (p : String) : String :=
  ⟨(p.data.reverse.takeWhile (fun c => c != '/')).reverse⟩

/-- One position of `re.match('.*2\.6\.([0-9]{2}).*', s)`: does `2.6.`
followed by two digits start here, and if so what number do they form? -/
def matchMinorAt : List Char → Option Nat
  | '2' :: '.' :: '6' :: '.' :: d1 :: d2 :: _ =>
      if d1.isDigit && d2.isDigit then
        some ((d1.toNat - '0'.toNat) * 10 + (d2.toNat - '0'.toNat))
      else none
  | _ => none

/-- The regex's leading `.*` is greedy, so the captured group comes from
the rightmost position where `2.6.[0-9]{2}` matches. -/
def lastMinorMatch : List Char → Option Nat
  | [] => none
  | c :: cs =>
      match lastMinorMatch cs with
      | some m => some m
      | none => matchMinorAt (c :: cs)

def extractMinor (s : String) : Option Nat := lastMinorMatch s.data

/-- Method `set_appropriate_serial_tty` of `OmapConfig` (boards.py lines 208-222):
first rebinds `serial_tty` to the profile default, then locates
`boot/vmlinuz*`, extracts the kernel minor version from its basename and
forces `ttyS2` when it is below 36. -/
def OmapProfile.set_appropriate_serial_tty (cls : OmapProfile)
    (files : List String) : Except String OmapSerialState :=
  match _get_file_matching "boot/vmlinuz*" files with
  | .error e => .error e
  | .ok vmlinuz =>
      match extractMinor (basename vmlinuz) with
      | none => .error "AttributeError: NoneType object has no attribute group"
      | some minor =>
          if minor < 36 then .ok (.resolved "ttyS2")
          else .ok (.resolved cls._serial_tty)

/-! ## Per-board boot-file traces (boards.py lines 236-244, 293-300,
319-325, 350-359, 376-381)

`_make_boot_files` is board-specific; its effect is modelled as the
sequence of helper invocations it performs, with their arguments. -/

inductive BoardAction
  | install_omap_boot_loader (chroot_dir boot_dir : String)
  | make_uImage (load_addr uboot_parts_dir kernel_suffix boot_dir : String)
  | make_uInitrd (uboot_parts_dir kernel_suffix boot_dir : String)
  | make_boot_script (boot_cmd boot_script : String)
  | make_boot_ini (boot_script boot_dir : String)
  | install_mx51evk_boot_loader (uboot_file boot_device_or_file : String)
  deriving Repr, DecidableEq

def BoardAction.is_boot_ini : BoardAction → Bool
  | .make_boot_ini _ _ => true
  | _ => false

/-- Helper `make_boot_ini` (boards.py lines 496-499): the `cp` command it
spawns. -/
def make_boot_ini (boot_script boot_disk : String) : List String :=
  ["cp", "-v", boot_script, boot_disk ++ "/boot.ini"]

def Board._make_boot_files (b : Board)
    (uboot_parts_dir boot_cmd chroot_dir boot_dir boot_script
     boot_device_or_file : String) : List BoardAction :=
  match b with
  | .beagle | .overo | .panda =>
      [ .install_omap_boot_loader chroot_dir boot_dir,
        .make_uImage (board_configs b).load_addr uboot_parts_dir
          (board_configs b).kernel_suffix boot_dir,
        .make_uInitrd uboot_parts_dir (board_configs b).kernel_suffix boot_dir,
        .make_boot_script boot_cmd boot_script,
        .make_boot_ini boot_script boot_dir ]
  | .igep =>
      [ .make_uImage (board_configs .igep).load_addr uboot_parts_dir
          (board_configs .igep).kernel_suffix boot_dir,
        .make_uInitrd uboot_parts_dir (board_configs .igep).kernel_suffix boot_dir,
        .make_boot_script boot_cmd boot_script,
        .make_boot_ini boot_script boot_dir ]
  | .ux500 =>
      [ .make_uImage (board_configs .ux500).load_addr uboot_parts_dir
          (board_configs .ux500).kernel_suffix boot_dir,
        .make_uInitrd uboot_parts_dir (board_configs .ux500).kernel_suffix boot_dir,
        .make_boot_script boot_cmd boot_script ]
  | .mx51evk =>
      [ .install_mx51evk_boot_loader
          (chroot_dir ++ "/usr/lib/u-boot/mx51evk/u-boot.imx") boot_device_or_file,
        .make_uImage (board_configs .mx51evk).load_addr uboot_parts_dir
          (board_configs .mx51evk).kernel_suffix boot_dir,
        .make_uInitrd uboot_parts_dir (board_configs .mx51evk).kernel_suffix boot_dir,
        .make_boot_script boot_cmd boot_script ]
  | .vexpress =>
      [ .make_uImage (board_configs .vexpress).load_addr uboot_parts_dir
          (board_configs .vexpress).kernel_suffix boot_dir,
        .make_uInitrd uboot_parts_dir (board_configs .vexpress).kernel_suffix boot_dir ]

/-! ## Theorems for the claims, with their supporting lemmas -/

/-- C2: the partition-plan constants computed at module load equal the
spec's definitions and satisfy its invariants (alignment and
loader-before-boot-before-root ordering). -/
theorem partition_plan_constants :
    PART_ALIGN_S = 8192 ∧
    LOADER_PART_START_S = 2 ∧
    BOOT_PART_START_S = 16384 ∧
    ROOT_PART_START_S = 131072 ∧
    LOADER_PART_SIZE_S
      = BOOT_PART_START_S / (63 * 255) * (63 * 255) - LOADER_PART_START_S ∧
    BOOT_PART_SIZE_S
      = ROOT_PART_START_S / (63 * 255) * (63 * 255) - BOOT_PART_START_S ∧
    LOADER_PART_START_S + LOADER_PART_SIZE_S < BOOT_PART_START_S ∧
    BOOT_PART_START_S < BOOT_PART_START_S + BOOT_PART_SIZE_S ∧
    BOOT_PART_START_S + BOOT_PART_SIZE_S < ROOT_PART_START_S ∧
    BOOT_PART_START_S % PART_ALIGN_S = 0 ∧
    ROOT_PART_START_S % PART_ALIGN_S = 0 := by
  decide

/-- C1 counterexample: the boot-partition size is 112136 sectors (Python 2
floor division: `131072 / 16065 * 16065 - 16384`), not 114688, so
`BeagleConfig.get_sfdisk_cmd()` does not return the claimed string. -/
theorem sfdisk_fat32_claim_false :
    Board.get_sfdisk_cmd Board.beagle ≠ "16384,114688,0x0C,*\n131072,,,-" := by
  decide

/-- C1 (amended): for every board profile with `fat_size = 32` and
`mmc_part_offset = 0`, `get_sfdisk_cmd()` returns exactly
`"16384,112136,0x0C,*"` followed by a newline and `"131072,,,-"`, i.e. a
boot partition of size 112136 sectors. -/
theorem sfdisk_fat32_directive (b : Board)
    (hfat : (board_configs b).fat_size = 32)
    (hoff : (board_configs b).mmc_part_offset = 0) :
    Board.get_sfdisk_cmd b = "16384,112136,0x0C,*\n131072,,,-" := by
  revert hfat hoff
  cases b <;> decide

/-- Witness for C1 (amended) at the Beagle profile. -/
theorem sfdisk_fat32_directive_witness :
    (board_configs Board.beagle).fat_size = 32 ∧
    (board_configs Board.beagle).mmc_part_offset = 0 ∧
    Board.get_sfdisk_cmd Board.beagle = "16384,112136,0x0C,*\n131072,,,-" :=
  ⟨by decide, by decide, sfdisk_fat32_directive Board.beagle (by decide) (by decide)⟩

theorem joinSp_cons_eq (x : String) (xs : List String) :
    joinSp (x :: xs) = x ++ spaced xs := by
  induction xs generalizing x with
  | nil => simp [joinSp, spaced]
  | cons y ys ih => simp [joinSp, spaced, ih, String.append_assoc]

theorem spaced_append (a b : List String) :
    spaced (a ++ b) = spaced a ++ spaced b := by
  induction a with
  | nil => simp [spaced]
  | cons x xs ih => simp [spaced, ih, String.append_assoc]

theorem console_foldl (cs : List String) (acc : String) :
    cs.foldl (fun a c => a ++ " console=" ++ c) acc
      = acc ++ spaced (cs.map (fun c => "console=" ++ c)) := by
  induction cs generalizing acc with
  | nil => simp [spaced]
  | cons c cs ih =>
      have hsplit : (" console=" : String) = " " ++ "console=" := rfl
      rw [List.foldl_cons, ih, List.map_cons]
      simp only [spaced]
      rw [hsplit]
      simp only [String.append_assoc]

theorem sp_serialtty_split : (" serialtty=" : String) = " " ++ "serialtty=" := rfl

/-- C3 counterexample: already for the Ux500 profile with one console,
not live, the synthesised bootargs is not the claimed single-space join —
the code prefixes every console token with a space and always renders the
(possibly empty) lowmem slot, producing a leading space and a double
space. -/
theorem bootargs_claim_false :
    BoardConfig.bootargs Ux500Config false false (some ["ttyS0"]) "deadbeef-uuid"
      ≠ claimedBootargs Ux500Config false false (some ["ttyS0"]) "deadbeef-uuid" := by
  decide

/-- C3 (amended): for every profile and input, the bootargs string is the
single-space join of: an empty leading token; `console=<c>` for each c in
consoles; `serialtty=<tty>` iff `is_live` and consoles were given; the
profile's `extra_serial_opts` (even when empty); if live the profile's
`live_serial_opts`; then a token that is `only-ubiquity` when live and
lowmem and empty otherwise; then `root=UUID=<uuid>` or `boot=casper`;
then `rootwait ro` plus the profile's extra options. -/
theorem bootargs_amended (cls : BoardConfig) (is_live is_lowmem : Bool)
    (consoles : Option (List String)) (uuid : String) :
    cls.bootargs is_live is_lowmem consoles uuid
      = joinSp ("" :: amendedTokens cls is_live is_lowmem consoles uuid) := by
  rw [joinSp_cons_eq, String.empty_append]
  rcases consoles with _ | cs <;> cases is_live <;>
    simp only [BoardConfig.bootargs, amendedTokens, Bool.false_eq_true,
      Bool.false_and, Bool.true_and, if_false, if_true, eq_self_iff_true,
      console_foldl, List.map_cons, List.nil_append, List.cons_append,
      List.append_nil, List.singleton_append, spaced_append, spaced,
      String.empty_append, String.append_empty] <;>
    simp only [sp_serialtty_split, String.append_assoc, String.empty_append,
      String.append_empty]

/-- C8: for every profile and all inputs, `_get_boot_cmd` is exactly the
newline-join of the `setenv bootcmd` line (loading uImage into
`kernel_addr` and uInitrd into `initrd_addr` from MMC slot `mmc_option`,
ending with `bootm`), the `setenv bootargs` line quoting the bootargs, and
the line `boot`, in that order. -/
theorem boot_cmd_three_lines (cls : BoardConfig) (is_live is_lowmem : Bool)
    (consoles : Option (List String)) (uuid : String) :
    cls._get_boot_cmd is_live is_lowmem consoles uuid
      = joinNl
          ["setenv bootcmd 'fatload mmc " ++ cls.mmc_option ++ " " ++ cls.kernel_addr
             ++ " uImage; fatload mmc " ++ cls.mmc_option ++ " " ++ cls.initrd_addr
             ++ " uInitrd; bootm " ++ cls.kernel_addr ++ " " ++ cls.initrd_addr ++ "'",
           "setenv bootargs '" ++ cls.bootargs is_live is_lowmem consoles uuid ++ "'",
           "boot"] := by
  have h1 : ("'\nsetenv bootargs '" : String)
      = "'" ++ ("\n" ++ "setenv bootargs '") := rfl
  have h2 : ("'\nboot" : String) = "'" ++ ("\n" ++ "boot") := rfl
  simp only [BoardConfig._get_boot_cmd, joinNl, h1, h2, String.append_assoc]

/-- C9: `_get_file_matching` returns the unique matching path when the
glob matches exactly one file, and fails with an error both when it
matches zero files and when it matches several. -/
theorem file_matching_unique (pattern : String) (files : List String) :
    (∀ f, files.filter (globMatch pattern) = [f] →
        _get_file_matching pattern files = .ok f)
    ∧ ((files.filter (globMatch pattern)).length ≠ 1 →
        ∃ e, _get_file_matching pattern files = .error e) := by
  constructor
  · intro f hf
    simp [_get_file_matching, hf]
  · intro h
    simp only [_get_file_matching]
    rw [if_neg h]
    by_cases h0 : (files.filter (globMatch pattern)).length = 0
    · exact ⟨_, by rw [if_pos h0]⟩
    · exact ⟨_, by rw [if_neg h0]⟩

/-- Witness for C9: one match returns it; zero matches errors. -/
theorem file_matching_unique_witness :
    _get_file_matching "boot/vmlinuz*" ["boot/vmlinuz-2.6.35-22", "boot/config"]
      = .ok "boot/vmlinuz-2.6.35-22"
    ∧ ∃ e, _get_file_matching "boot/vmlinuz*" ["boot/config"] = .error e :=
  ⟨(file_matching_unique "boot/vmlinuz*" ["boot/vmlinuz-2.6.35-22", "boot/config"]).1
      "boot/vmlinuz-2.6.35-22" (by decide),
   (file_matching_unique "boot/vmlinuz*" ["boot/config"]).2 (by decide)⟩

/-- C4 counterexample: `make_uInitrd` does not use the profile's load
address — for the Ux500 profile the invocation carries `-a 0 -e 0` while
the profile's `load_addr` is `0x00008000`. -/
theorem make_uInitrd_not_load_addr :
    make_uInitrd "parts" "ux500" "boot" ["parts/initrd.img-2.6.35-22-ux500"]
      = .ok ["mkimage", "-A", "arm", "-O", "linux", "-T", "ramdisk", "-C", "none",
             "-a", "0", "-e", "0", "-n", "initramfs", "-d",
             "parts/initrd.img-2.6.35-22-ux500", "boot/uInitrd"]
    ∧ Ux500Config.load_addr ≠ "0" :=
  ⟨rfl, by decide⟩

/-- C4 (amended): `make_uImage` wraps the kernel with the profile's
`load_addr` as both load (`-a`) and entry (`-e`) address, while
`make_uInitrd` wraps the initrd with `0` as both load and entry
address. -/
theorem mkimage_load_addr (load_addr uboot_parts_dir suffix boot_disk : String)
    (files : List String) (k i : String)
    (hk : files.filter (globMatch (uboot_parts_dir ++ "/vmlinuz-*-" ++ suffix)) = [k])
    (hi : files.filter (globMatch (uboot_parts_dir ++ "/initrd.img-*-" ++ suffix)) = [i]) :
    make_uImage load_addr uboot_parts_dir suffix boot_disk files
      = .ok ["mkimage", "-A", "arm", "-O", "linux", "-T", "kernel", "-C", "none",
             "-a", load_addr, "-e", load_addr, "-n", "Linux", "-d", k,
             boot_disk ++ "/uImage"]
    ∧ make_uInitrd uboot_parts_dir suffix boot_disk files
      = .ok ["mkimage", "-A", "arm", "-O", "linux", "-T", "ramdisk", "-C", "none",
             "-a", "0", "-e", "0", "-n", "initramfs", "-d", i,
             boot_disk ++ "/uInitrd"] := by
  constructor
  · simp [make_uImage, _get_file_matching, _run_mkimage, hk]
  · simp [make_uInitrd, _get_file_matching, _run_mkimage, hi]

/-- Witness for C4 (amended) with a concrete uboot-parts listing. -/
theorem mkimage_load_addr_witness :
    make_uImage "0x80008000" "p" "linaro-omap" "b"
        ["p/vmlinuz-2.6.35-22-linaro-omap", "p/initrd.img-2.6.35-22-linaro-omap"]
      = .ok ["mkimage", "-A", "arm", "-O", "linux", "-T", "kernel", "-C", "none",
             "-a", "0x80008000", "-e", "0x80008000", "-n", "Linux", "-d",
             "p/vmlinuz-2.6.35-22-linaro-omap", "b/uImage"]
    ∧ make_uInitrd "p" "linaro-omap" "b"
        ["p/vmlinuz-2.6.35-22-linaro-omap", "p/initrd.img-2.6.35-22-linaro-omap"]
      = .ok ["mkimage", "-A", "arm", "-O", "linux", "-T", "ramdisk", "-C", "none",
             "-a", "0", "-e", "0", "-n", "initramfs", "-d",
             "p/initrd.img-2.6.35-22-linaro-omap", "b/uInitrd"] :=
  mkimage_load_addr "0x80008000" "p" "linaro-omap" "b"
    ["p/vmlinuz-2.6.35-22-linaro-omap", "p/initrd.img-2.6.35-22-linaro-omap"]
    "p/vmlinuz-2.6.35-22-linaro-omap" "p/initrd.img-2.6.35-22-linaro-omap"
    (by decide) (by decide)

/-- C5: for every OMAP-family profile, when `boot/vmlinuz*` matches
exactly one file whose basename carries kernel minor version `minor`,
`set_appropriate_serial_tty` resolves the serial TTY to `ttyS2` when
`minor < 36` and to the profile default `_serial_tty` otherwise; and
reading `serial_tty` — directly or through the `extra_serial_opts` /
`live_serial_opts` readers — before that resolution fails with the
programming-error message. -/
theorem omap_serial_tty_resolution (cls : OmapProfile) (files : List String)
    (f : String) (minor : Nat)
    (hglob : files.filter (globMatch "boot/vmlinuz*") = [f])
    (hminor : extractMinor (basename f) = some minor) :
    cls.set_appropriate_serial_tty files
      = .ok (.resolved (if minor < 36 then "ttyS2" else cls._serial_tty))
    ∧ readSerialTty .unresolved
        = .error ("You must not use this attribute before calling "
            ++ "set_appropriate_serial_tty")
    ∧ cls.extra_serial_opts .unresolved
        = .error ("You must not use this attribute before calling "
            ++ "set_appropriate_serial_tty")
    ∧ cls.live_serial_opts .unresolved
        = .error ("You must not use this attribute before calling "
            ++ "set_appropriate_serial_tty") := by
  refine ⟨?_, rfl, rfl, rfl⟩
  by_cases h : minor < 36 <;>
    simp [OmapProfile.set_appropriate_serial_tty, _get_file_matching,
      hglob, hminor, h]

/-- Witness for C5: a Beagle chroot with a 2.6.35 kernel resolves to
`ttyS2`. -/
theorem omap_serial_tty_resolution_witness :
    BeagleConfigOmap.set_appropriate_serial_tty
        ["boot/vmlinuz-2.6.35-1002-linaro-omap"]
      = .ok (.resolved (if 35 < 36 then "ttyS2" else BeagleConfigOmap._serial_tty))
    ∧ readSerialTty .unresolved
        = .error ("You must not use this attribute before calling "
            ++ "set_appropriate_serial_tty")
    ∧ BeagleConfigOmap.extra_serial_opts .unresolved
        = .error ("You must not use this attribute before calling "
            ++ "set_appropriate_serial_tty")
    ∧ BeagleConfigOmap.live_serial_opts .unresolved
        = .error ("You must not use this attribute before calling "
            ++ "set_appropriate_serial_tty") :=
  omap_serial_tty_resolution BeagleConfigOmap
    ["boot/vmlinuz-2.6.35-1002-linaro-omap"]
    "boot/vmlinuz-2.6.35-1002-linaro-omap" 35 (by decide) (by decide)

/-- C10: the OMAP-family boards (Beagle, Overo, Panda, Igep) end
`_make_boot_files` by copying the boot script to `<boot_dir>/boot.ini`
via `make_boot_ini`, while Ux500, Mx51evk and Vexpress never invoke
`make_boot_ini`. -/
theorem omap_boot_ini (b : Board)
    (u bc cd bd bs bdf : String) :
    ((b = .beagle ∨ b = .overo ∨ b = .panda ∨ b = .igep) →
        (Board._make_boot_files b u bc cd bd bs bdf).getLast?
          = some (.make_boot_ini bs bd)
        ∧ make_boot_ini bs bd = ["cp", "-v", bs, bd ++ "/boot.ini"])
    ∧ ((b = .ux500 ∨ b = .mx51evk ∨ b = .vexpress) →
        (Board._make_boot_files b u bc cd bd bs bdf).all
          (fun a => !a.is_boot_ini) = true) := by
  constructor
  · rintro (rfl | rfl | rfl | rfl) <;> exact ⟨rfl, rfl⟩
  · rintro (rfl | rfl | rfl) <;> rfl

/-- Witness for C10 at the Beagle and Ux500 boards. -/
theorem omap_boot_ini_witness :
    ((Board._make_boot_files .beagle "u" "cmd" "chroot" "bootdir" "script" "dev").getLast?
        = some (.make_boot_ini "script" "bootdir")
      ∧ make_boot_ini "script" "bootdir" = ["cp", "-v", "script", "bootdir/boot.ini"])
    ∧ (Board._make_boot_files .ux500 "u" "cmd" "chroot" "bootdir" "script" "dev").all
        (fun a => !a.is_boot_ini) = true :=
  ⟨(omap_boot_ini .beagle "u" "cmd" "chroot" "bootdir" "script" "dev").1
      (Or.inl rfl),
   (omap_boot_ini .ux500 "u" "cmd" "chroot" "bootdir" "script" "dev").2
      (Or.inl rfl)⟩

/-- C6: exactly the mx51evk profile has a positive `mmc_part_offset`; its
partitioning directive begins with the loader line
`LOADER_PART_START_S,LOADER_PART_SIZE_S,0xDA` followed by the base
two-line layout, and every profile with `mmc_part_offset = 0` emits the
base layout unchanged (hence no loader line). -/
theorem loader_partition_line :
    (∀ b : Board, 0 < (board_configs b).mmc_part_offset ↔ b = Board.mx51evk)
    ∧ Board.get_sfdisk_cmd Board.mx51evk
        = Nat.repr LOADER_PART_START_S ++ "," ++ Nat.repr LOADER_PART_SIZE_S
            ++ ",0xDA\n" ++ (board_configs Board.mx51evk).get_sfdisk_cmd
    ∧ (∀ b : Board, (board_configs b).mmc_part_offset = 0 →
        Board.get_sfdisk_cmd b = (board_configs b).get_sfdisk_cmd) := by
  refine ⟨by decide, rfl, ?_⟩
  intro b hb
  revert hb
  cases b <;> decide

/-- Witness for C6: the inner hypothesis discharged at the Beagle
board. -/
theorem loader_partition_line_witness :
    Board.get_sfdisk_cmd Board.beagle = (board_configs Board.beagle).get_sfdisk_cmd :=
  loader_partition_line.2.2 Board.beagle (by decide)

/-- C7: every board's directive carries the boot-partition line at
`BOOT_PART_START_S` of size `BOOT_PART_SIZE_S`, marked bootable with a
trailing `,*`, of type 0x0C when `fat_size` is 32 and 0x0E when it is
16; and the FAT-16 profile is exactly Vexpress. -/
theorem boot_partition_line (b : Board) :
    Board.get_sfdisk_cmd b
      = (if 0 < (board_configs b).mmc_part_offset
         then Nat.repr LOADER_PART_START_S ++ "," ++ Nat.repr LOADER_PART_SIZE_S
           ++ ",0xDA\n"
         else "")
        ++ Nat.repr BOOT_PART_START_S ++ "," ++ Nat.repr BOOT_PART_SIZE_S ++ ","
        ++ (if (board_configs b).fat_size = 32 then "0x0C" else "0x0E") ++ ",*\n"
        ++ Nat.repr ROOT_PART_START_S ++ ",,,-"
    ∧ ((board_configs b).fat_size = 16 ↔ b = Board.vexpress) := by
  cases b <;> exact ⟨by decide, by decide⟩
